import Mathlib

/-!
Verification development for the confidential-transactions panel of the
XORIONCHAIN/xorionV2 repository (`src/components/ConfidentialPanel.tsx`) and
its sample proving circuits (`public/circuits_sample/transfer.circom`,
`public/circuits_sample/deposit.circom`).

The TypeScript component is embedded shallowly:

* Poseidon hash values are represented symbolically by `FExpr`, so that the
  hash construction (arity and field ordering) used by client and circuit can
  be compared exactly.
* The component state (`userNotes`, the `withdraw`/`transact` forms,
  `merkleRoot`, the Poseidon initialisation flag) becomes `PanelState`.
* The ledger api is a record of query functions; each embedded operation also
  returns the list of storage queries it issued, so that "path resolution was
  attempted" and "the root was never re-read" are provable statements.
* The circuit-input record passed to `snarkjs.groth16.fullProve` is evaluated
  property by property against an environment of the identifiers actually in
  scope, mirroring JavaScript's left-to-right evaluation of object literals
  and its `ReferenceError` on an undefined identifier.
-/

namespace Xorion

/-- Symbolic Poseidon hash expressions.  `circomlibjs`'s `poseidon` is an
external black box; what the client and the circuit fix between them is the
arity and the ordering of the inputs, which this syntax captures exactly. -/
inductive FExpr where
  | lit (n : Nat)
  | poseidon1 (a : FExpr)
  | poseidon2 (a b : FExpr)
  | poseidon3 (a b c : FExpr)
deriving DecidableEq, Repr, BEq

/-- Number of inputs of the outermost Poseidon application (0 for a literal). -/
def FExpr.hashArity : FExpr → Nat
  | .lit _ => 0
  | .poseidon1 _ => 1
  | .poseidon2 _ _ => 2
  | .poseidon3 _ _ _ => 3

/-! ### Hex / byte helpers from `@polkadot/util` as used by the component -/

/-- Value of one hexadecimal digit (0 for any other character). -/
def hexCharVal (c : Char) : Nat :=
  if '0' ≤ c ∧ c ≤ '9' then c.toNat - '0'.toNat
  else if 'a' ≤ c ∧ c ≤ 'f' then c.toNat - 'a'.toNat + 10
  else if 'A' ≤ c ∧ c ≤ 'F' then c.toNat - 'A'.toNat + 10
  else 0

/-- Strip an optional leading `0x`, working on the character list. -/
def stripHexPrefix (cs : List Char) : List Char :=
  match cs with
  | '0' :: 'x' :: rest => rest
  | _ => cs

/-- `hexToBn` from `@polkadot/util`: parse a (possibly `0x`-prefixed)
hexadecimal string into an unbounded integer. -/
def hexToBn (s : String) : Nat :=
  (stripHexPrefix s.data).foldl (fun acc c => 16 * acc + hexCharVal c) 0

/-- `s.startsWith('0x')`, on the character list. -/
def startsWith0x (s : String) : Bool :=
  match s.data with
  | '0' :: 'x' :: _ => true
  | _ => false

/-- The component's recurring `s.startsWith('0x') ? s : '0x' + s` pattern. -/
def ensure0x (s : String) : String :=
  if startsWith0x s then s else "0x" ++ s

/-- `new BN(s)`: base-10 parse, used by the handlers on form amounts. -/
def decToBn (s : String) : Nat :=
  s.data.foldl (fun acc c => 10 * acc + (c.toNat - '0'.toNat)) 0

def hexDigitChar (n : Nat) : Char :=
  if n < 10 then Char.ofNat ('0'.toNat + n) else Char.ofNat ('a'.toNat + (n - 10))

def byteToHex (n : Nat) : String :=
  String.mk [hexDigitChar (n / 16 % 16), hexDigitChar (n % 16)]

/-- `stringToHex` from `@polkadot/util`: hex encoding of the byte content of a
string. -/
def stringToHex (s : String) : String :=
  "0x" ++ String.join (s.data.map (fun c => byteToHex (c.toNat % 256)))

/-- `bnToU8a(bn, \x7b bitLength: 8*len, isLe: false \x7d)`: big-endian byte list. -/
def bnToU8aBE (n : Nat) (byteLength : Nat) : List Nat :=
  (List.range byteLength).map (fun i => n / 256 ^ (byteLength - 1 - i) % 256)

/-! ### Data model of the component state (ConfidentialPanel.tsx lines 31-48) -/

/-- A stored private note, the element type of the `userNotes` state
(line 33): `\x7b amount: string; nonce: string; commitment: string;
leafIndex: number \x7d`.  The commitment hex string is kept as the symbolic
hash value it denotes. -/
structure Note where
  amount : String
  nonce : String
  commitment : FExpr
  leafIndex : Nat
deriving DecidableEq, Repr, BEq

/-- The `withdraw` slice of the form state (line 37). -/
structure WithdrawForm where
  noteIndex : Option Nat
  amount : String
  recipient : String
deriving DecidableEq, Repr

/-- The `transact` slice of the form state (lines 38-44). -/
structure TransactForm where
  fromNote1 : Option Nat
  fromNote2 : Option Nat
  toAmount1 : String
  toRecipient1 : String
  toAmount2 : String
deriving DecidableEq, Repr

/-- The component state relevant to the note pipeline: `merkleRoot` and
`userNotes` (lines 32-33), the Poseidon initialisation flag (line 15), the
form slices and the `loading`/`error`/`events` fields (lines 34-48). -/
structure PanelState where
  merkleRoot : Option String
  userNotes : List Note
  poseidonReady : Bool
  withdraw : WithdrawForm
  transact : TransactForm
  loading : Bool
  error : Option String
  events : List String
deriving DecidableEq, Repr

/-- The ledger query service used by the component:
`api.query.confidentialTransactions.merkleRoot()` (line 57) and
`api.query.confidentialTransactions.treeNodes([level, index])` (line 175). -/
structure Api where
  merkleRoot : String
  treeNodes : Nat → Nat → String

/-- One storage query issued against the ledger api. -/
inductive ApiQuery where
  | treeNodes (level index : Nat)
  | merkleRootQuery
deriving DecidableEq, Repr

def ApiQuery.isTreeNodes : ApiQuery → Bool
  | .treeNodes _ _ => true
  | .merkleRootQuery => false

/-! ### Merkle path resolution (`fetchMerklePath`, lines 168-180) -/

/-- Sibling index computation from line 174:
`index % 2 === 0 ? index + 1 : index - 1`. -/
def siblingIndex (index : Nat) : Nat :=
  if index % 2 = 0 then index + 1 else index - 1

/-- `const depth = 32` (line 172): the hardcoded tree depth. -/
def depth : Nat := 32

/-- The loop body of `fetchMerklePath` (lines 173-178): for `d` from `depth`
down to 1, query `treeNodes([d, siblingIndex])`, push the hash, then set
`index = Math.floor(index / 2)`. -/
def fetchLoop (tn : Nat → Nat → String) : Nat → Nat → List String
  | 0, _ => []
  | d + 1, index => tn (d + 1) (siblingIndex index) :: fetchLoop tn d (index / 2)

/-- The same loop, recording the storage queries it issues. -/
def fetchLoopQueries : Nat → Nat → List ApiQuery
  | 0, _ => []
  | d + 1, index => .treeNodes (d + 1) (siblingIndex index) :: fetchLoopQueries d (index / 2)

/-- `fetchMerklePath` (lines 168-180): `if (!api) return [];` then the loop. -/
def fetchMerklePath (api : Option Api) (leafIndex : Nat) : List String :=
  match api with
  | none => []
  | some a => fetchLoop a.treeNodes depth leafIndex

/-- Queries issued by `fetchMerklePath`. -/
def fetchMerklePathQueries (api : Option Api) (leafIndex : Nat) : List ApiQuery :=
  match api with
  | none => []
  | some _ => fetchLoopQueries depth leafIndex

/-- Modelled from the spec, §4.3 Merkle Path Resolver: at each level compute
the sibling index as `index XOR 1`, fetch the sibling hash at
`(level, sibling)`, append it, then set `index = index / 2`. -/
def specResolveLoop (fetchSibling : Nat → Nat → String) : Nat → Nat → List String
  | 0, _ => []
  | d + 1, index => fetchSibling (d + 1) (index ^^^ 1) :: specResolveLoop fetchSibling d (index / 2)

/-! ### The sample proving circuits -/

/-- `transfer.circom` lines 26-32: `nullifier_i === Poseidon(1)(note_i_blinding)`. -/
def circuitNullifier (blinding : FExpr) : FExpr := .poseidon1 blinding

/-- `transfer.circom` lines 35-43: a new output commitment is constrained to
`Poseidon(2)(out_amount, out_blinding)` — two inputs, amount first. -/
def circuitNewCommitment (outAmount outBlinding : FExpr) : FExpr :=
  .poseidon2 outAmount outBlinding

/-- `transfer.circom` line 46, the balance constraint:
`note1_amount + note2_amount === out1_amount + out2_amount` (no fee term). -/
def circuitBalanceHolds (note1Amount note2Amount out1Amount out2Amount : Nat) : Bool :=
  note1Amount + note2Amount == out1Amount + out2Amount

/-- `transfer.circom` line 75: `component main = Transfer(20)` — the circuit
is instantiated with 20 Merkle levels. -/
def circuitLevels : Nat := 20

/-- `deposit.circom` lines 10-13: `commitment <== Poseidon(2)(amount, blinding)`. -/
def depositCircuitCommitment (amount blinding : FExpr) : FExpr :=
  .poseidon2 amount blinding

/-! ### Client-side hash constructions -/

/-- The deposit commitment the client computes (lines 117-122):
`poseidon([amountBn, recipientBn, nonceBn])` — three inputs. -/
def depositCommitment (amountBn recipientBn nonceBn : Nat) : FExpr :=
  .poseidon3 (.lit amountBn) (.lit recipientBn) (.lit nonceBn)

/-- The transfer output commitment the client computes (lines 281-286 and
288-295): `poseidon([toAmountBn, toRecipientBn, hexToBn(nonce)])` — three
inputs, with the recipient mixed into the pre-image. -/
def transactCommitment (toAmountBn toRecipientBn nonceBn : Nat) : FExpr :=
  .poseidon3 (.lit toAmountBn) (.lit toRecipientBn) (.lit nonceBn)

/-! ### Runtime errors the component can raise -/

/-- The exceptions the pipeline functions can throw: the explicit
`throw new Error(...)` validations, JavaScript's `ReferenceError` for an
undefined identifier, and `TypeError` for a property access on `undefined`.
There is no stale-root variant: the code defines no such failure. -/
inductive PanelError where
  | selectANote
  | invalidNote
  | poseidonNotInitialized
  | selectTwoNotes
  | referenceError (name : String)
  | typeError (message : String)
deriving DecidableEq, Repr

/-- Rendering of an error as the `` `${err}` `` interpolation used by the
catch blocks (lines 164, 258, 359). -/
def PanelError.toMessage : PanelError → String
  | .selectANote => "Error: Select a note"
  | .invalidNote => "Error: Invalid note"
  | .poseidonNotInitialized => "Error: Poseidon not initialized"
  | .selectTwoNotes => "Error: Select two notes"
  | .referenceError name => "ReferenceError: " ++ name ++ " is not defined"
  | .typeError message => "TypeError: " ++ message

/-! ### Evaluation of the circuit-input object literals

JavaScript evaluates the properties of an object literal left to right and
throws `ReferenceError` at the first property whose value expression names an
identifier that is not in scope.  Each property of the records the component
passes to `snarkjs.groth16.fullProve` is modelled as a pair of the property
name and the identifier its value expression resolves, and is evaluated
against an environment listing the identifiers actually bound at the call
site together with their values. -/

/-- A value bound to an identifier at the `fullProve` call site. -/
inductive RecordVal where
  | optStr (o : Option String)
  | str (s : String)
  | num (n : Nat)
  | hash (e : FExpr)
  | strList (l : List String)
  | note (nt : Note)
deriving DecidableEq, Repr

/-- The external prover (`snarkjs.groth16.fullProve` composed with
`exportSolidityCallData`), black-boxed as a function from the evaluated
circuit-input record to proof bytes. -/
def Prover : Type := List (String × RecordVal) → String

/-- Left-to-right evaluation of an object literal: the first property whose
identifier is missing from the environment raises `ReferenceError`. -/
def evalProps (env : List (String × RecordVal)) :
    List (String × String) → Except PanelError (List (String × RecordVal))
  | [] => .ok []
  | (prop, ident) :: rest =>
    match env.lookup ident with
    | none => .error (.referenceError ident)
    | some v =>
      match evalProps env rest with
      | .error e => .error e
      | .ok r => .ok ((prop, v) :: r)

/-- The prefix of properties successfully evaluated before the first
`ReferenceError` (all of them when none is raised). -/
def evalPropsPrefix (env : List (String × RecordVal)) :
    List (String × String) → List (String × RecordVal)
  | [] => []
  | (prop, ident) :: rest =>
    match env.lookup ident with
    | none => []
    | some v => (prop, v) :: evalPropsPrefix env rest

/-! ### `generateWithdrawProof` (lines 182-216) -/

/-- Return value of `generateWithdrawProof` (line 215). -/
structure WithdrawProofResult where
  proofBytes : String
  nullifier : FExpr
deriving DecidableEq, Repr

/-- The circuit-input record of lines 199-208, each property paired with the
identifier its value expression resolves.  `nullifierBn` (line 201) is bound
nowhere in the function — the computed binding is `nullifierBigInt`
(line 190).  The `commitment` property reads `hexToBn(note.commitment)`; its
free identifiers `hexToBn` and `note` are both in scope, and `note` is the
one looked up here. -/
def withdrawProveProps : List (String × String) :=
  [("merkleRoot", "merkleRoot"),
   ("nullifier", "nullifierBn"),
   ("recipient", "recipientBn"),
   ("amount", "amountBn"),
   ("fee", "fee"),
   ("path", "path"),
   ("nonce", "nonceBn"),
   ("commitment", "note")]

/-- The identifiers bound in `generateWithdrawProof`'s scope at the
`fullProve` call (lines 183-196), with their values: the component state
`merkleRoot` plus the function's own `const` bindings, in source order. -/
def withdrawProveEnv (st : PanelState) (noteIndex : Nat) (note : Note)
    (nonceBn : Nat) (nullifierBigInt : FExpr) (path : List String)
    (amountBn recipientBn fee : Nat) : List (String × RecordVal) :=
  [("merkleRoot", .optStr st.merkleRoot),
   ("noteIndex", .num noteIndex),
   ("amount", .str st.withdraw.amount),
   ("recipient", .str st.withdraw.recipient),
   ("note", .note note),
   ("nonceBn", .num nonceBn),
   ("nullifierBigInt", .hash nullifierBigInt),
   ("nullifier", .hash nullifierBigInt),
   ("path", .strList path),
   ("amountBn", .num amountBn),
   ("recipientBn", .num recipientBn),
   ("fee", .num fee)]

/-- `generateWithdrawProof` (lines 182-216).  Alongside the result, the list
of ledger storage queries the call issued is returned. -/
def generateWithdrawProof (api : Option Api) (prover : Prover) (st : PanelState) :
    List ApiQuery × Except PanelError WithdrawProofResult :=
  match st.withdraw.noteIndex with
  | none => ([], .error .selectANote)
  | some noteIndex =>
    match st.userNotes[noteIndex]? with
    | none => ([], .error .invalidNote)
    | some note =>
      let nonceBn := hexToBn note.nonce
      if st.poseidonReady = false then ([], .error .poseidonNotInitialized) else
      let nullifierBigInt := FExpr.poseidon1 (.lit nonceBn)
      let path := fetchMerklePath api note.leafIndex
      let queries := fetchMerklePathQueries api note.leafIndex
      let amountBn := hexToBn st.withdraw.amount
      let recipientBn := hexToBn (ensure0x st.withdraw.recipient)
      let fee := 0
      match evalProps (withdrawProveEnv st noteIndex note nonceBn nullifierBigInt
          path amountBn recipientBn fee) withdrawProveProps with
      | .error e => (queries, .error e)
      | .ok record =>
        (queries, .ok { proofBytes := prover record, nullifier := nullifierBigInt })

/-! ### `generateTransactProof` (lines 262-320) -/

/-- Return value of `generateTransactProof` (line 319). -/
structure TransactProofResult where
  proofBytes : String
  nullifier1 : FExpr
  nullifier2 : FExpr
  commitment1 : FExpr
  commitment2 : FExpr
  newNonce1 : String
  newNonce2 : String
  newAmount1 : String
  newRecipient1 : String
  newAmount2 : String
deriving DecidableEq, Repr

/-- The circuit-input record of lines 302-310.  `nullifier1Bn`,
`nullifier2Bn`, `commitment1Bn` and `commitment2Bn` are bound nowhere — the
computed bindings are `nullifier1BigInt`/`commitment1BigInt` and the hex
strings `nullifier1`/`commitment1` (lines 270-295).  The `nonce1`/`nonce2`
properties read `hexToBn(note1.nonce)`/`hexToBn(note2.nonce)`, whose free
identifiers are in scope; `note1`/`note2` are the ones looked up here. -/
def transactProveProps : List (String × String) :=
  [("merkleRoot", "merkleRoot"),
   ("nullifier1", "nullifier1Bn"),
   ("nullifier2", "nullifier2Bn"),
   ("commitment1", "commitment1Bn"),
   ("commitment2", "commitment2Bn"),
   ("path1", "path1"),
   ("path2", "path2"),
   ("nonce1", "note1"),
   ("nonce2", "note2")]

/-- The identifiers bound in `generateTransactProof`'s scope at the
`fullProve` call (lines 263-298), with their values, in source order. -/
def transactProveEnv (st : PanelState) (note1 note2 : Note)
    (nullifier1BigInt nullifier2BigInt : FExpr) (nonce1 nonce2 : String)
    (toAmount1Bn toRecipient1Bn : Nat) (commitment1 : FExpr)
    (toAmount2Bn toRecipient2Bn : Nat) (commitment2 : FExpr)
    (path1 path2 : List String) : List (String × RecordVal) :=
  [("merkleRoot", .optStr st.merkleRoot),
   ("note1", .note note1),
   ("note2", .note note2),
   ("nullifier1BigInt", .hash nullifier1BigInt),
   ("nullifier2BigInt", .hash nullifier2BigInt),
   ("nullifier1", .hash nullifier1BigInt),
   ("nullifier2", .hash nullifier2BigInt),
   ("nonce1", .str nonce1),
   ("nonce2", .str nonce2),
   ("toAmount1Bn", .num toAmount1Bn),
   ("toRecipient1Bn", .num toRecipient1Bn),
   ("commitment1BigInt", .hash commitment1),
   ("commitment1", .hash commitment1),
   ("toAmount2Bn", .num toAmount2Bn),
   ("toRecipient2Bn", .num toRecipient2Bn),
   ("commitment2BigInt", .hash commitment2),
   ("commitment2", .hash commitment2),
   ("path1", .strList path1),
   ("path2", .strList path2)]

/-- `generateTransactProof` (lines 262-320).  The fresh output nonces
produced by `generateNonce()` (lines 276-277) are passed in as the random
oracle's answers.  The only validation is the null check on the two selected
note indices (line 264); there is no reservation check and no balance check. -/
def generateTransactProof (api : Option Api) (selectedAccount : Option String)
    (prover : Prover) (nonce1 nonce2 : String) (st : PanelState) :
    List ApiQuery × Except PanelError TransactProofResult :=
  match st.transact.fromNote1, st.transact.fromNote2 with
  | some fromNote1, some fromNote2 =>
    if st.poseidonReady = false then ([], .error .poseidonNotInitialized) else
    match st.userNotes[fromNote1]? with
    | none => ([], .error (.typeError "Cannot read properties of undefined (reading 'nonce')"))
    | some note1 =>
      match st.userNotes[fromNote2]? with
      | none => ([], .error (.typeError "Cannot read properties of undefined (reading 'nonce')"))
      | some note2 =>
        let nullifier1BigInt := FExpr.poseidon1 (.lit (hexToBn note1.nonce))
        let nullifier2BigInt := FExpr.poseidon1 (.lit (hexToBn note2.nonce))
        let toAmount1Bn := hexToBn st.transact.toAmount1
        let toRecipient1Bn := hexToBn (ensure0x st.transact.toRecipient1)
        let commitment1 := transactCommitment toAmount1Bn toRecipient1Bn (hexToBn nonce1)
        let toAmount2Bn := hexToBn st.transact.toAmount2
        match selectedAccount with
        | none => ([], .error (.typeError "Cannot read properties of undefined (reading 'address')"))
        | some address =>
          let toRecipient2Bn := hexToBn (ensure0x address)
          let commitment2 := transactCommitment toAmount2Bn toRecipient2Bn (hexToBn nonce2)
          let path1 := fetchMerklePath api note1.leafIndex
          let path2 := fetchMerklePath api note2.leafIndex
          let queries := fetchMerklePathQueries api note1.leafIndex ++
            fetchMerklePathQueries api note2.leafIndex
          match evalProps (transactProveEnv st note1 note2 nullifier1BigInt
              nullifier2BigInt nonce1 nonce2 toAmount1Bn toRecipient1Bn commitment1
              toAmount2Bn toRecipient2Bn commitment2 path1 path2) transactProveProps with
          | .error e => (queries, .error e)
          | .ok record =>
            (queries, .ok {
              proofBytes := prover record,
              nullifier1 := nullifier1BigInt,
              nullifier2 := nullifier2BigInt,
              commitment1 := commitment1,
              commitment2 := commitment2,
              newNonce1 := nonce1,
              newNonce2 := nonce2,
              newAmount1 := st.transact.toAmount1,
              newRecipient1 := st.transact.toRecipient1,
              newAmount2 := st.transact.toAmount2 })
  | _, _ => ([], .error .selectTwoNotes)

/-! ### Ledger transaction status callbacks -/

/-- The status carried by a `signAndSend` callback result.  `isInBlock` is
true exactly for the `inBlock` stage; the later `finalized` stage is a
distinct status for which `isInBlock` is false. -/
inductive TxStatus where
  | ready
  | broadcast
  | inBlock (blockHash : String)
  | finalized (blockHash : String)
  | dropped
  | invalid
deriving DecidableEq, Repr

def TxStatus.isInBlock : TxStatus → Bool
  | .inBlock _ => true
  | _ => false

def TxStatus.isFinalized : TxStatus → Bool
  | .finalized _ => true
  | _ => false

/-- `result.status.asInBlock`, the block hash shown in the event log. -/
def TxStatus.asInBlock : TxStatus → String
  | .inBlock blockHash => blockHash
  | _ => ""

/-- One ledger event in a callback result (`e.event.method`, `e.event.data`). -/
structure EventRecord where
  method : String
  data : List Nat
deriving DecidableEq, Repr

/-- A `signAndSend` callback argument: the transaction status and the events
of the containing block. -/
structure TxResult where
  status : TxStatus
  events : List EventRecord
deriving DecidableEq, Repr

/-- JavaScript's `Array.prototype.filter` with the element index, as used by
`userNotes.filter((_, i) => ...)`. -/
def filterIdxGo {α : Type} (p : Nat → Bool) : Nat → List α → List α
  | _, [] => []
  | i, x :: xs => if p i then x :: filterIdxGo p (i + 1) xs else filterIdxGo p (i + 1) xs

def filterIdx {α : Type} (p : Nat → Bool) (xs : List α) : List α :=
  filterIdxGo p 0 xs

/-- The `signAndSend` callback of `handleWithdraw` (lines 244-256): when the
result status is in-block, the spent note is removed from `userNotes` by
filtering out its index (`filter((_, i) => i !== state.withdraw.noteIndex)`),
the new list is persisted, and an event line is appended.  Nothing happens on
any other status, including finality. -/
def withdrawOnStatus (st : PanelState) (result : TxResult) : PanelState :=
  if result.status.isInBlock then
    let newNotes := filterIdx (fun i => (some i : Option Nat) != st.withdraw.noteIndex) st.userNotes
    { st with
      userNotes := newNotes,
      events := st.events ++ ["Withdrawn in block " ++ result.status.asInBlock],
      loading := false }
  else st

/-- The `signAndSend` callback of `handleTransact` (lines 339-357): when the
result status is in-block, both source notes are filtered out of `userNotes`,
and the two output notes are appended with locally fabricated leaf indices
`userNotes.length + 1` and that value plus one (lines 344-346, the code's own
comment calls them "Fake") — the ledger events in `result` are never read. -/
def transactOnStatus (st : PanelState) (res : TransactProofResult) (result : TxResult) :
    PanelState :=
  if result.status.isInBlock then
    let newNotes := filterIdx
      (fun i => ((some i : Option Nat) != st.transact.fromNote1) &&
                ((some i : Option Nat) != st.transact.fromNote2)) st.userNotes
    let newLeaf1 := st.userNotes.length + 1
    let newLeaf2 := newLeaf1 + 1
    let newNotes := newNotes ++
      [{ amount := res.newAmount1, nonce := res.newNonce1,
         commitment := res.commitment1, leafIndex := newLeaf1 },
       { amount := res.newAmount2, nonce := res.newNonce2,
         commitment := res.commitment2, leafIndex := newLeaf2 }]
    { st with
      userNotes := newNotes,
      events := st.events ++ ["Transacted in block " ++ result.status.asInBlock],
      loading := false }
  else st

/-- The `signAndSend` callback of `handleDeposit` (lines 148-162): when the
result status is in-block, the leaf index is read from the third data field
of the block's `Deposit` event, and only if one is found is the new note
saved — the deposit path takes its leaf index from ledger event data. -/
def depositOnStatus (st : PanelState) (noteAmount nonce : String) (commitment : FExpr)
    (result : TxResult) : PanelState :=
  if result.status.isInBlock then
    let leafIndex := match result.events.find? (fun e => e.method == "Deposit") with
      | some depositEvent => depositEvent.data[2]?
      | none => none
    let st1 := match leafIndex with
      | some leaf =>
        { st with userNotes := st.userNotes ++
            [({ amount := noteAmount, nonce := nonce, commitment := commitment,
                leafIndex := leaf } : Note)] }
      | none => st
    { st1 with
      events := st1.events ++ ["Deposited in block " ++ result.status.asInBlock],
      loading := false }
  else st

/-! ### The submit handlers (`handleWithdraw` lines 218-260, `handleTransact`
lines 322-361) -/

/-- An element of the `publicInputs` arrays (lines 230-236 and 330-336):
either the hex encoding of a string, the hex encoding of a symbolic hash
value, or a big-endian byte array. -/
inductive PublicInput where
  | hexStr (s : String)
  | hash (e : FExpr)
  | bytes (l : List Nat)
deriving DecidableEq, Repr

/-- A signed extrinsic handed to `signAndSend`. -/
structure TxSubmission where
  call : String
  proofBytes : String
  publicInputs : List PublicInput
  recipient : Option String
  amount : Option Nat
deriving DecidableEq, Repr

/-- The synchronous part of `handleWithdraw` (lines 218-243): the
connection/account/root guard, the call to `generateWithdrawProof`, and on
success the construction of the public inputs and the extrinsic.  Returns
the updated component state, the broadcast extrinsic if one was built, and
the storage queries issued. -/
def handleWithdraw (api : Option Api) (selectedAccount : Option String)
    (prover : Prover) (st : PanelState) :
    PanelState × Option TxSubmission × List ApiQuery :=
  match api, selectedAccount, st.merkleRoot with
  | some apiV, some _, some merkleRoot =>
    let st1 := { st with loading := true, error := none }
    match generateWithdrawProof (some apiV) prover st1 with
    | (queries, .error e) =>
      ({ st1 with error := some ("Withdraw failed: " ++ e.toMessage), loading := false },
       none, queries)
    | (queries, .ok res) =>
      let amountBN := decToBn st1.withdraw.amount
      let amountBytes := bnToU8aBE amountBN 16
      let feeBytes := bnToU8aBE 0 16
      let recipientHash := stringToHex st1.withdraw.recipient
      let publicInputs : List PublicInput :=
        [.hexStr (stringToHex merkleRoot),
         .hash res.nullifier,
         .hexStr recipientHash,
         .bytes amountBytes,
         .bytes feeBytes]
      (st1,
       some { call := "confidentialTransactions.withdraw", proofBytes := res.proofBytes,
              publicInputs := publicInputs, recipient := some st1.withdraw.recipient,
              amount := some amountBN },
       queries)
  | _, _, _ => ({ st with error := some "Not connected or account not selected" }, none, [])

/-- The synchronous part of `handleTransact` (lines 322-338). -/
def handleTransact (api : Option Api) (selectedAccount : Option String)
    (prover : Prover) (nonce1 nonce2 : String) (st : PanelState) :
    PanelState × Option TxSubmission × List ApiQuery :=
  match api, selectedAccount, st.merkleRoot with
  | some apiV, some account, some merkleRoot =>
    let st1 := { st with loading := true, error := none }
    match generateTransactProof (some apiV) (some account) prover nonce1 nonce2 st1 with
    | (queries, .error e) =>
      ({ st1 with error := some ("Transact failed: " ++ e.toMessage), loading := false },
       none, queries)
    | (queries, .ok res) =>
      let publicInputs : List PublicInput :=
        [.hexStr (stringToHex merkleRoot),
         .hash res.nullifier1,
         .hash res.nullifier2,
         .hash res.commitment1,
         .hash res.commitment2]
      (st1,
       some { call := "confidentialTransactions.transact", proofBytes := res.proofBytes,
              publicInputs := publicInputs, recipient := none, amount := none },
       queries)
  | _, _, _ => ({ st with error := some "Not connected or account not selected" }, none, [])

/-- The `connect` effect (lines 50-93): query the current Merkle root once
and store it in component state, and load any persisted notes.  This is the
only place the chain's root is ever read. -/
def connect (api : Api) (storedNotes : Option (List Note)) (st : PanelState) : PanelState :=
  let st1 := { st with merkleRoot := some api.merkleRoot }
  match storedNotes with
  | some notes => { st1 with userNotes := notes }
  | none => st1

/-- The storage queries issued by `connect`: a single Merkle-root read. -/
def connectQueries : List ApiQuery := [.merkleRootQuery]

/-! ### Helper lemmas -/

theorem siblingIndex_eq_xor (n : Nat) : siblingIndex n = n ^^^ 1 := by
  have h := Nat.bit_decide_mod_two_eq_one_shiftRight_one n
  have h1 : (1 : Nat) = Nat.bit true 0 := rfl
  rcases Nat.mod_two_eq_zero_or_one n with hm | hm
  · have hb : decide (n % 2 = 1) = false := by simp [hm]
    rw [hb] at h
    have hx : n ^^^ 1 = Nat.bit true (n >>> 1) := by
      conv_lhs => rw [← h, h1]
      rw [Nat.xor_bit]
      simp
    rw [hx, Nat.bit_val, Nat.shiftRight_one]
    simp only [siblingIndex, hm]
    simp
    omega
  · have hb : decide (n % 2 = 1) = true := by simp [hm]
    rw [hb] at h
    have hx : n ^^^ 1 = Nat.bit false (n >>> 1) := by
      conv_lhs => rw [← h, h1]
      rw [Nat.xor_bit]
      simp
    rw [hx, Nat.bit_val, Nat.shiftRight_one]
    simp only [siblingIndex, hm]
    simp
    omega

theorem fetchLoop_length (tn : Nat → Nat → String) : ∀ d index, (fetchLoop tn d index).length = d
  | 0, _ => rfl
  | d + 1, index => by simp [fetchLoop, fetchLoop_length tn d]

theorem fetchLoopQueries_length : ∀ d index, (fetchLoopQueries d index).length = d
  | 0, _ => rfl
  | d + 1, index => by simp [fetchLoopQueries, fetchLoopQueries_length d]

theorem fetchLoopQueries_all_treeNodes :
    ∀ d index, (fetchLoopQueries d index).all ApiQuery.isTreeNodes = true
  | 0, _ => rfl
  | d + 1, index => by
    simp [fetchLoopQueries, List.all_cons, fetchLoopQueries_all_treeNodes d,
      ApiQuery.isTreeNodes]

theorem fetchLoop_eq_specResolveLoop (tn : Nat → Nat → String) :
    ∀ d index, fetchLoop tn d index = specResolveLoop tn d index
  | 0, _ => rfl
  | d + 1, index => by
    simp [fetchLoop, specResolveLoop, siblingIndex_eq_xor,
      fetchLoop_eq_specResolveLoop tn d]

/-- Evaluating the withdraw circuit-input record always fails on the
undefined `nullifierBn`, right after the `merkleRoot` property evaluated. -/
theorem evalProps_withdraw (st : PanelState) (noteIndex : Nat) (note : Note)
    (nonceBn : Nat) (nullifierBigInt : FExpr) (path : List String)
    (amountBn recipientBn fee : Nat) :
    evalProps (withdrawProveEnv st noteIndex note nonceBn nullifierBigInt path
      amountBn recipientBn fee) withdrawProveProps =
      .error (.referenceError "nullifierBn") := rfl

/-- Evaluating the transact circuit-input record always fails on the
undefined `nullifier1Bn`. -/
theorem evalProps_transact (st : PanelState) (note1 note2 : Note)
    (nullifier1BigInt nullifier2BigInt : FExpr) (nonce1 nonce2 : String)
    (toAmount1Bn toRecipient1Bn : Nat) (commitment1 : FExpr)
    (toAmount2Bn toRecipient2Bn : Nat) (commitment2 : FExpr)
    (path1 path2 : List String) :
    evalProps (transactProveEnv st note1 note2 nullifier1BigInt nullifier2BigInt
      nonce1 nonce2 toAmount1Bn toRecipient1Bn commitment1 toAmount2Bn
      toRecipient2Bn commitment2 path1 path2) transactProveProps =
      .error (.referenceError "nullifier1Bn") := rfl

/-- `generateWithdrawProof` never succeeds: its result is one of the three
explicit validation errors or the `ReferenceError` on `nullifierBn`. -/
theorem generateWithdrawProof_result (api : Option Api) (prover : Prover) (st : PanelState) :
    (generateWithdrawProof api prover st).2 ∈
      [Except.error PanelError.selectANote, .error .invalidNote,
       .error .poseidonNotInitialized, .error (.referenceError "nullifierBn")] := by
  unfold generateWithdrawProof
  cases h1 : st.withdraw.noteIndex with
  | none => simp
  | some noteIndex =>
    cases h2 : st.userNotes[noteIndex]? with
    | none => simp [h2]
    | some note =>
      cases h3 : st.poseidonReady with
      | false => simp [h2]
      | true => simp [h2, evalProps_withdraw]

/-- With a note selected, present, and Poseidon initialised,
`generateWithdrawProof` fails with the `ReferenceError` on `nullifierBn`,
whatever the api, the prover and the rest of the state. -/
theorem generateWithdrawProof_refError (api : Option Api) (prover : Prover)
    (st : PanelState) (noteIndex : Nat) (note : Note)
    (h1 : st.withdraw.noteIndex = some noteIndex)
    (h2 : st.userNotes[noteIndex]? = some note)
    (h3 : st.poseidonReady = true) :
    (generateWithdrawProof api prover st).2 = .error (.referenceError "nullifierBn") := by
  unfold generateWithdrawProof
  simp [h1, h2, h3, evalProps_withdraw]

/-- `generateTransactProof` never succeeds: its result is one of the
explicit validation errors, a `TypeError` on a missing note or account, or
the `ReferenceError` on `nullifier1Bn`. -/
theorem generateTransactProof_result (api : Option Api) (selectedAccount : Option String)
    (prover : Prover) (nonce1 nonce2 : String) (st : PanelState) :
    (generateTransactProof api selectedAccount prover nonce1 nonce2 st).2 ∈
      [Except.error PanelError.selectTwoNotes, .error .poseidonNotInitialized,
       .error (.typeError "Cannot read properties of undefined (reading 'nonce')"),
       .error (.typeError "Cannot read properties of undefined (reading 'address')"),
       .error (.referenceError "nullifier1Bn")] := by
  unfold generateTransactProof
  cases h1 : st.transact.fromNote1 with
  | none => simp
  | some fromNote1 =>
    cases h2 : st.transact.fromNote2 with
    | none => simp
    | some fromNote2 =>
      cases h3 : st.poseidonReady with
      | false => simp
      | true =>
        cases h4 : st.userNotes[fromNote1]? with
        | none => simp [h4]
        | some note1 =>
          cases h5 : st.userNotes[fromNote2]? with
          | none => simp [h4, h5]
          | some note2 =>
            cases h6 : selectedAccount with
            | none => simp [h4, h5]
            | some address => simp [h4, h5, evalProps_transact]

/-- With both notes selected and present, Poseidon initialised and an
account selected, `generateTransactProof` fails with the `ReferenceError` on
`nullifier1Bn`, whatever the api, the prover, the nonces and the amounts. -/
theorem generateTransactProof_refError (api : Option Api) (address : String)
    (prover : Prover) (nonce1 nonce2 : String) (st : PanelState)
    (fromNote1 fromNote2 : Nat) (note1 note2 : Note)
    (h1 : st.transact.fromNote1 = some fromNote1)
    (h2 : st.transact.fromNote2 = some fromNote2)
    (h3 : st.poseidonReady = true)
    (h4 : st.userNotes[fromNote1]? = some note1)
    (h5 : st.userNotes[fromNote2]? = some note2) :
    (generateTransactProof api (some address) prover nonce1 nonce2 st).2 =
      .error (.referenceError "nullifier1Bn") := by
  unfold generateTransactProof
  simp [h1, h2, h3, h4, h5, evalProps_transact]

/-- All queries `generateWithdrawProof` issues are `treeNodes` reads: the
chain's current root is never re-read during the withdraw pipeline. -/
theorem generateWithdrawProof_queries (api : Option Api) (prover : Prover) (st : PanelState) :
    ((generateWithdrawProof api prover st).1).all ApiQuery.isTreeNodes = true := by
  unfold generateWithdrawProof
  cases h1 : st.withdraw.noteIndex with
  | none => simp
  | some noteIndex =>
    cases h2 : st.userNotes[noteIndex]? with
    | none => simp [h2]
    | some note =>
      cases h3 : st.poseidonReady with
      | false => simp [h2]
      | true =>
        cases api with
        | none => simp [h2, evalProps_withdraw, fetchMerklePathQueries]
        | some a =>
          simp [h2, evalProps_withdraw, fetchMerklePathQueries,
            fetchLoopQueries_all_treeNodes]

/-- All queries `generateTransactProof` issues are `treeNodes` reads. -/
theorem generateTransactProof_queries (api : Option Api) (selectedAccount : Option String)
    (prover : Prover) (nonce1 nonce2 : String) (st : PanelState) :
    ((generateTransactProof api selectedAccount prover nonce1 nonce2 st).1).all
      ApiQuery.isTreeNodes = true := by
  unfold generateTransactProof
  cases h1 : st.transact.fromNote1 with
  | none => simp
  | some fromNote1 =>
    cases h2 : st.transact.fromNote2 with
    | none => simp
    | some fromNote2 =>
      cases h3 : st.poseidonReady with
      | false => simp
      | true =>
        cases h4 : st.userNotes[fromNote1]? with
        | none => simp [h4]
        | some note1 =>
          cases h5 : st.userNotes[fromNote2]? with
          | none => simp [h4, h5]
          | some note2 =>
            cases h6 : selectedAccount with
            | none => simp [h4, h5]
            | some address =>
              cases api with
              | none => simp [h4, h5, evalProps_transact, fetchMerklePathQueries]
              | some a =>
                simp [h4, h5, evalProps_transact, fetchMerklePathQueries,
                  fetchLoopQueries_all_treeNodes]

theorem filterIdxGo_all {α : Type} (p : Nat → Bool) :
    ∀ (xs : List α) (s : Nat), (∀ j, j < xs.length → p (s + j) = true) →
      filterIdxGo p s xs = xs
  | [], _, _ => rfl
  | x :: xs, s, h => by
    have h0 : p s = true := by simpa using h 0 (by simp)
    have hrest : filterIdxGo p (s + 1) xs = xs := by
      apply filterIdxGo_all p xs (s + 1)
      intro j hj
      have := h (j + 1) (by simpa using Nat.succ_lt_succ hj)
      simpa [Nat.add_assoc, Nat.add_comm, Nat.add_left_comm] using this
    simp [filterIdxGo, h0, hrest]

/-- Removing the element at position `k = s + pre.length` with the
`i !== noteIndex` filter keeps everything else. -/
theorem filterIdxGo_remove {α : Type} (k : Nat) :
    ∀ (pre : List α) (n : α) (post : List α) (s : Nat), s + pre.length = k →
      filterIdxGo (fun i => (some i : Option Nat) != some k) s (pre ++ n :: post) =
        pre ++ post
  | [], n, post, s, hs => by
    have hk : s = k := by simpa using hs
    subst hk
    have hp : ((some s : Option Nat) != some s) = false := by simp
    have hrest : filterIdxGo (fun i => (some i : Option Nat) != some s) (s + 1) post = post := by
      apply filterIdxGo_all
      intro j hj
      simp [bne_iff_ne]
      omega
    simp [filterIdxGo, hp, hrest]
  | x :: pre, n, post, s, hs => by
    have hs' : s + (pre.length + 1) = k := by simpa [Nat.add_comm, Nat.add_assoc] using hs
    have hp : ((some s : Option Nat) != some k) = true := by
      simp [bne_iff_ne]
      omega
    have hrest := filterIdxGo_remove k pre n post (s + 1) (by omega)
    simp [filterIdxGo, hp, hrest]

theorem filterIdx_remove {α : Type} (pre : List α) (n : α) (post : List α) :
    filterIdx (fun i => (some i : Option Nat) != some pre.length) (pre ++ n :: post) =
      pre ++ post :=
  filterIdxGo_remove pre.length pre n post 0 (by simp)

/-- The transact filter with the first two positions selected drops exactly
the two leading notes. -/
theorem filterIdx_remove_first_two {α : Type} (n1 n2 : α) (rest : List α) :
    filterIdx (fun i => (((some i : Option Nat) != some 0) &&
      ((some i : Option Nat) != some 1))) (n1 :: n2 :: rest) = rest := by
  have h0 : ((((some 0 : Option Nat) != some 0) && ((some 0 : Option Nat) != some 1))) = false := by
    simp
  have h1 : ((((some 1 : Option Nat) != some 0) && ((some 1 : Option Nat) != some 1))) = false := by
    simp
  have hrest : filterIdxGo (fun i => (((some i : Option Nat) != some 0) &&
      ((some i : Option Nat) != some 1))) 2 rest = rest := by
    apply filterIdxGo_all
    intro j hj
    simp [bne_iff_ne]
    omega
  simp [filterIdx, filterIdxGo, h0, h1, hrest]

/-- `handleWithdraw` never broadcasts an extrinsic: `generateWithdrawProof`
always throws first. -/
theorem handleWithdraw_no_submission (api : Option Api) (selectedAccount : Option String)
    (prover : Prover) (st : PanelState) :
    ((handleWithdraw api selectedAccount prover st).2).1 = none := by
  unfold handleWithdraw
  cases api with
  | none => rfl
  | some apiV =>
    cases selectedAccount with
    | none => rfl
    | some acct =>
      cases hmr : st.merkleRoot with
      | none => simp [hmr]
      | some mr =>
        simp only [hmr]
        have hres := generateWithdrawProof_result (some apiV) prover
          { st with merkleRoot := some mr, loading := true, error := none }
        rcases hgen : generateWithdrawProof (some apiV) prover
          { st with merkleRoot := some mr, loading := true, error := none } with ⟨qs, r⟩
        cases r with
        | error e => simp [hgen]
        | ok res =>
          rw [hgen] at hres
          simp at hres

/-- `handleTransact` never broadcasts an extrinsic. -/
theorem handleTransact_no_submission (api : Option Api) (selectedAccount : Option String)
    (prover : Prover) (nonce1 nonce2 : String) (st : PanelState) :
    ((handleTransact api selectedAccount prover nonce1 nonce2 st).2).1 = none := by
  unfold handleTransact
  cases api with
  | none => rfl
  | some apiV =>
    cases selectedAccount with
    | none => rfl
    | some acct =>
      cases hmr : st.merkleRoot with
      | none => simp [hmr]
      | some mr =>
        simp only [hmr]
        have hres := generateTransactProof_result (some apiV) (some acct) prover nonce1 nonce2
          { st with merkleRoot := some mr, loading := true, error := none }
        rcases hgen : generateTransactProof (some apiV) (some acct) prover nonce1 nonce2
          { st with merkleRoot := some mr, loading := true, error := none } with ⟨qs, r⟩
        cases r with
        | error e => simp [hgen]
        | ok res =>
          rw [hgen] at hres
          simp at hres

/-- The synchronous part of `handleWithdraw` never touches the note store. -/
theorem handleWithdraw_userNotes (api : Option Api) (selectedAccount : Option String)
    (prover : Prover) (st : PanelState) :
    ((handleWithdraw api selectedAccount prover st).1).userNotes = st.userNotes := by
  unfold handleWithdraw
  cases api with
  | none => rfl
  | some apiV =>
    cases selectedAccount with
    | none => rfl
    | some acct =>
      cases hmr : st.merkleRoot with
      | none => simp [hmr]
      | some mr =>
        simp only [hmr]
        rcases hgen : generateWithdrawProof (some apiV) prover
          { st with merkleRoot := some mr, loading := true, error := none } with ⟨qs, r⟩
        cases r with
        | error e => simp [hgen]
        | ok res => simp [hgen]

/-- The synchronous part of `handleTransact` never touches the note store. -/
theorem handleTransact_userNotes (api : Option Api) (selectedAccount : Option String)
    (prover : Prover) (nonce1 nonce2 : String) (st : PanelState) :
    ((handleTransact api selectedAccount prover nonce1 nonce2 st).1).userNotes =
      st.userNotes := by
  unfold handleTransact
  cases api with
  | none => rfl
  | some apiV =>
    cases selectedAccount with
    | none => rfl
    | some acct =>
      cases hmr : st.merkleRoot with
      | none => simp [hmr]
      | some mr =>
        simp only [hmr]
        rcases hgen : generateTransactProof (some apiV) (some acct) prover nonce1 nonce2
          { st with merkleRoot := some mr, loading := true, error := none } with ⟨qs, r⟩
        cases r with
        | error e => simp [hgen]
        | ok res => simp [hgen]

theorem withdrawOnStatus_merkleRoot (st : PanelState) (r : TxResult) :
    (withdrawOnStatus st r).merkleRoot = st.merkleRoot := by
  cases h : r.status.isInBlock <;> simp [withdrawOnStatus, h]

theorem transactOnStatus_merkleRoot (st : PanelState) (res : TransactProofResult)
    (r : TxResult) : (transactOnStatus st res r).merkleRoot = st.merkleRoot := by
  cases h : r.status.isInBlock <;> simp [transactOnStatus, h]

/-- The leaf indices after the transact in-block callback: the survivors'
indices followed by the two fabricated values `length + 1` and `length + 2`,
independent of the ledger events carried by the result. -/
theorem transactOnStatus_leafIndices (st : PanelState) (res : TransactProofResult)
    (b : String) (evts : List EventRecord) :
    ((transactOnStatus st res { status := .inBlock b, events := evts }).userNotes).map
        Note.leafIndex =
      (filterIdx (fun i => (((some i : Option Nat) != st.transact.fromNote1) &&
        ((some i : Option Nat) != st.transact.fromNote2))) st.userNotes).map
        Note.leafIndex ++ [st.userNotes.length + 1, st.userNotes.length + 2] := by
  simp [transactOnStatus, TxStatus.isInBlock]

/-! ### Concrete fixtures -/

/-- A ledger api whose every tree node reads as the zero hash. -/
def sampleApi : Api := { merkleRoot := "0xaaaa", treeNodes := fun _ _ => "0x00" }

/-- The same storage, observed after the chain's root advanced. -/
def advancedApi : Api := { merkleRoot := "0xbbbb", treeNodes := fun _ _ => "0x00" }

def sampleProver : Prover := fun _ => "0xproof"

def note100 : Note :=
  { amount := "0x64", nonce := "0xa1", commitment := .lit 901, leafIndex := 3 }

def note50 : Note :=
  { amount := "0x32", nonce := "0xa2", commitment := .lit 902, leafIndex := 4 }

def note25 : Note :=
  { amount := "0x19", nonce := "0xa3", commitment := .lit 903, leafIndex := 9 }

def emptyState : PanelState :=
  { merkleRoot := none, userNotes := [], poseidonReady := true,
    withdraw := { noteIndex := none, amount := "", recipient := "" },
    transact :=
      { fromNote1 := none, fromNote2 := none, toAmount1 := "",
        toRecipient1 := "", toAmount2 := "" },
    loading := false, error := none, events := [] }

/-- A connected state holding one note, about to withdraw 0x3c from it. -/
def cWithdrawState : PanelState :=
  { emptyState with
    merkleRoot := some "0xaaaa",
    userNotes := [note100],
    withdraw := { noteIndex := some 0, amount := "0x3c", recipient := "0xdead" } }

/-- A connected state about to transfer notes (100, 50) into outputs
(0x78 = 120, 0x1d = 29): balance conservation is violated (150 against 149). -/
def cTransactState : PanelState :=
  { emptyState with
    merkleRoot := some "0xaaaa",
    userNotes := [note100, note50],
    transact :=
      { fromNote1 := some 0, fromNote2 := some 1, toAmount1 := "0x78",
        toRecipient1 := "0xbeef", toAmount2 := "0x1d" } }

/-- A transfer intent selecting the same note for both inputs. -/
def cSameNoteState : PanelState :=
  { emptyState with
    merkleRoot := some "0xaaaa",
    userNotes := [note100],
    transact :=
      { fromNote1 := some 0, fromNote2 := some 0, toAmount1 := "0x32",
        toRecipient1 := "0xbeef", toAmount2 := "0x32" } }

/-- The state before `connect` runs, a withdraw intent already entered. -/
def cPreState : PanelState :=
  { emptyState with
    withdraw := { noteIndex := some 0, amount := "0x3c", recipient := "0xdead" } }

/-- The state `connect` produces against `sampleApi` with one stored note. -/
def cConnectedState : PanelState := connect sampleApi (some [note100]) cPreState

/-- A concrete transact-proof result for exercising the in-block callback. -/
def cTransactRes : TransactProofResult :=
  { proofBytes := "0xproof",
    nullifier1 := .poseidon1 (.lit (hexToBn note100.nonce)),
    nullifier2 := .poseidon1 (.lit (hexToBn note50.nonce)),
    commitment1 := transactCommitment 120 (hexToBn "0xbeef") (hexToBn "0xb1"),
    commitment2 := transactCommitment 29 (hexToBn "0xabcd") (hexToBn "0xb2"),
    newNonce1 := "0xb1", newNonce2 := "0xb2",
    newAmount1 := "0x78", newRecipient1 := "0xbeef", newAmount2 := "0x1d" }

/-! ### Claims -/

/-- C1: the commitment the client computes for a transfer output note is a
three-input Poseidon hash over (amount, recipient, nonce) — seen concretely
at (5, 7, 9) — whereas the proving circuit constrains every new commitment to
the two-input `Poseidon(2)(out_amount, out_blinding)`.  The claimed equality
of construction fails: the arities differ on every input. -/
theorem C1_transfer_commitment_is_three_input_but_circuit_enforces_two :
    (∀ a r n : Nat, (transactCommitment a r n).hashArity = 3) ∧
    (∀ x y : FExpr, (circuitNewCommitment x y).hashArity = 2) ∧
    transactCommitment 5 7 9 = FExpr.poseidon3 (.lit 5) (.lit 7) (.lit 9) ∧
    circuitNewCommitment (.lit 5) (.lit 9) = FExpr.poseidon2 (.lit 5) (.lit 9) :=
  ⟨fun _ _ _ => rfl, fun _ _ => rfl, rfl, rfl⟩

/-- C2: with a selected (and present) note and Poseidon initialised, both
spend paths throw a `ReferenceError` on an identifier the circuit-input
record names but the function never defines (`nullifierBn` in the withdraw
path, `nullifier1Bn` in the transfer path), for every api, prover, nonce
oracle and remaining state — and consequently neither handler ever reaches
the prover or broadcasts an extrinsic. -/
theorem C2_undefined_identifiers_abort_every_spend :
    (∀ (api : Option Api) (prover : Prover) (st : PanelState) (noteIndex : Nat) (note : Note),
      st.withdraw.noteIndex = some noteIndex →
      st.userNotes[noteIndex]? = some note →
      st.poseidonReady = true →
      (generateWithdrawProof api prover st).2 = .error (.referenceError "nullifierBn")) ∧
    (∀ (api : Option Api) (address : String) (prover : Prover) (nonce1 nonce2 : String)
        (st : PanelState) (i1 i2 : Nat) (note1 note2 : Note),
      st.transact.fromNote1 = some i1 →
      st.transact.fromNote2 = some i2 →
      st.poseidonReady = true →
      st.userNotes[i1]? = some note1 →
      st.userNotes[i2]? = some note2 →
      (generateTransactProof api (some address) prover nonce1 nonce2 st).2 =
        .error (.referenceError "nullifier1Bn")) ∧
    (∀ (api : Option Api) (selectedAccount : Option String) (prover : Prover) (st : PanelState),
      ((handleWithdraw api selectedAccount prover st).2).1 = none) ∧
    (∀ (api : Option Api) (selectedAccount : Option String) (prover : Prover)
        (nonce1 nonce2 : String) (st : PanelState),
      ((handleTransact api selectedAccount prover nonce1 nonce2 st).2).1 = none) :=
  ⟨fun api prover st noteIndex note h1 h2 h3 =>
      generateWithdrawProof_refError api prover st noteIndex note h1 h2 h3,
   fun api address prover nonce1 nonce2 st i1 i2 note1 note2 h1 h2 h3 h4 h5 =>
      generateTransactProof_refError api address prover nonce1 nonce2 st i1 i2 note1 note2
        h1 h2 h3 h4 h5,
   handleWithdraw_no_submission,
   handleTransact_no_submission⟩

/-- Witness for C2 at the concrete fixtures. -/
theorem C2_undefined_identifiers_abort_every_spend_witness :
    (generateWithdrawProof (some sampleApi) sampleProver cWithdrawState).2 =
      .error (.referenceError "nullifierBn") ∧
    (generateTransactProof (some sampleApi) (some "0xabcd") sampleProver "0xb1" "0xb2"
      cTransactState).2 = .error (.referenceError "nullifier1Bn") :=
  ⟨C2_undefined_identifiers_abort_every_spend.1 (some sampleApi) sampleProver
      cWithdrawState 0 note100 rfl rfl rfl,
   (C2_undefined_identifiers_abort_every_spend.2.1) (some sampleApi) "0xabcd" sampleProver
      "0xb1" "0xb2" cTransactState 0 1 note100 note50 rfl rfl rfl rfl rfl⟩

/-- C3: the transfer in-block callback assigns the output notes the leaf
indices `userNotes.length + 1` and `userNotes.length + 2`, computed from
local state only, for every ledger result — and concretely, a block event
reporting leaf 77 is ignored: with two stored notes the outputs get leaves 3
and 4.  The deposit callback, by contrast, does read its leaf index (77)
from the `Deposit` event data. -/
theorem C3_transfer_leaf_indices_fabricated_locally :
    (∀ (st : PanelState) (res : TransactProofResult) (b : String) (evts : List EventRecord),
      ((transactOnStatus st res { status := .inBlock b, events := evts }).userNotes).map
          Note.leafIndex =
        (filterIdx (fun i => (((some i : Option Nat) != st.transact.fromNote1) &&
          ((some i : Option Nat) != st.transact.fromNote2))) st.userNotes).map
          Note.leafIndex ++ [st.userNotes.length + 1, st.userNotes.length + 2]) ∧
    ((transactOnStatus cTransactState cTransactRes
        { status := .inBlock "0xb",
          events := [{ method := "TransactionSuccess", data := [77, 78] }] }).userNotes).map
      Note.leafIndex = [3, 4] ∧
    ((depositOnStatus emptyState "0x64" "0xa1" (.lit 901)
        { status := .inBlock "0xb",
          events := [{ method := "Deposit", data := [1, 100, 77] }] }).userNotes).map
      Note.leafIndex = [77] := by
  refine ⟨transactOnStatus_leafIndices, ?_, ?_⟩ <;> rfl

/-- C4 counterexample: after the withdraw spend is included in a block, the
spent note is gone from the store — it is not retained in any history. -/
theorem C4_counterexample_spent_note_not_retained :
    (((withdrawOnStatus cWithdrawState { status := .inBlock "0xb", events := [] }).userNotes).contains
      note100) = false ∧
    (((transactOnStatus cTransactState cTransactRes
        { status := .inBlock "0xb", events := [] }).userNotes).contains note100) = false ∧
    (((transactOnStatus cTransactState cTransactRes
        { status := .inBlock "0xb", events := [] }).userNotes).contains note50) = false := by
  refine ⟨?_, ?_, ?_⟩ <;> rfl

/-- C4 (amended): when a spend is included in a block, the spent source
notes are deleted from the Note Store — the withdraw callback keeps exactly
the other positions, and the transfer callback keeps the remaining notes and
appends the two outputs; no spent note is retained. -/
theorem C4_spent_notes_deleted_from_store :
    (∀ (pre : List Note) (n : Note) (post : List Note) (mr : Option String)
        (wa wr : String) (tf : TransactForm) (pr ld : Bool) (er : Option String)
        (ev : List String) (b : String) (evts : List EventRecord),
      (withdrawOnStatus
        { merkleRoot := mr, userNotes := pre ++ n :: post, poseidonReady := pr,
          withdraw := { noteIndex := some pre.length, amount := wa, recipient := wr },
          transact := tf, loading := ld, error := er, events := ev }
        { status := .inBlock b, events := evts }).userNotes = pre ++ post) ∧
    (∀ (n1 n2 : Note) (rest : List Note) (res : TransactProofResult) (mr : Option String)
        (wf : WithdrawForm) (a1 r1 a2 : String) (pr ld : Bool) (er : Option String)
        (ev : List String) (b : String) (evts : List EventRecord),
      (transactOnStatus
        { merkleRoot := mr, userNotes := n1 :: n2 :: rest, poseidonReady := pr,
          withdraw := wf,
          transact :=
            { fromNote1 := some 0, fromNote2 := some 1, toAmount1 := a1,
              toRecipient1 := r1, toAmount2 := a2 },
          loading := ld, error := er, events := ev }
        res { status := .inBlock b, events := evts }).userNotes =
        rest ++
          [{ amount := res.newAmount1, nonce := res.newNonce1, commitment := res.commitment1,
             leafIndex := (n1 :: n2 :: rest).length + 1 },
           { amount := res.newAmount2, nonce := res.newNonce2, commitment := res.commitment2,
             leafIndex := (n1 :: n2 :: rest).length + 2 }]) := by
  constructor
  · intro pre n post mr wa wr tf pr ld er ev b evts
    simp [withdrawOnStatus, TxStatus.isInBlock, filterIdx_remove]
  · intro n1 n2 rest res mr wf a1 r1 a2 pr ld er ev b evts
    simp [transactOnStatus, TxStatus.isInBlock, filterIdx_remove_first_two]

/-- C5 counterexample: with the same note selected for both transfer inputs,
the intent is not rejected as "note already reserved" — the only null-check
validation passes, 64 `treeNodes` storage queries are issued (Merkle path
resolution for both inputs), and the run ends in the unrelated
`ReferenceError` on `nullifier1Bn`. -/
theorem C5_counterexample_same_note_not_rejected :
    (generateTransactProof (some sampleApi) (some "0xabcd") sampleProver "0xb1" "0xb2"
      cSameNoteState).2 = .error (.referenceError "nullifier1Bn") ∧
    ((generateTransactProof (some sampleApi) (some "0xabcd") sampleProver "0xb1" "0xb2"
      cSameNoteState).1).length = 64 ∧
    ((generateTransactProof (some sampleApi) (some "0xabcd") sampleProver "0xb1" "0xb2"
      cSameNoteState).1).all ApiQuery.isTreeNodes = true := by
  refine ⟨rfl, rfl, rfl⟩

/-- C5 (amended): `generateTransactProof` performs no reservation check:
whenever the same note index is selected for both inputs, validation (null
checks only) passes and the operation proceeds into nullifier computation and
full Merkle path resolution for both inputs (64 storage queries) before
failing on the undefined `nullifier1Bn` — never with a
"note already reserved" rejection. -/
theorem C5_no_reservation_check_same_note_proceeds :
    ∀ (note : Note) (mr : Option String) (a1 r1 a2 : String) (wf : WithdrawForm)
      (api : Api) (address : String) (prover : Prover) (nonce1 nonce2 : String)
      (ld : Bool) (er : Option String) (ev : List String),
      ((generateTransactProof (some api) (some address) prover nonce1 nonce2
        { merkleRoot := mr, userNotes := [note], poseidonReady := true, withdraw := wf,
          transact :=
            { fromNote1 := some 0, fromNote2 := some 0, toAmount1 := a1,
              toRecipient1 := r1, toAmount2 := a2 },
          loading := ld, error := er, events := ev }).2 =
        .error (.referenceError "nullifier1Bn")) ∧
      ((generateTransactProof (some api) (some address) prover nonce1 nonce2
        { merkleRoot := mr, userNotes := [note], poseidonReady := true, withdraw := wf,
          transact :=
            { fromNote1 := some 0, fromNote2 := some 0, toAmount1 := a1,
              toRecipient1 := r1, toAmount2 := a2 },
          loading := ld, error := er, events := ev }).1).length = 64 := by
  intro note mr a1 r1 a2 wf api address prover nonce1 nonce2 ld er ev
  constructor
  · unfold generateTransactProof
    simp [evalProps_transact]
  · unfold generateTransactProof
    simp [evalProps_transact, fetchMerklePathQueries, fetchLoopQueries_length, depth]

/-- C6 counterexample: the root captured at connect time is `0xaaaa`; the
chain's root has since advanced to `0xbbbb`.  The withdraw pipeline run
against the advanced chain issues only `treeNodes` queries (it never re-reads
the root, so the advance cannot be detected), terminates in the unrelated
`ReferenceError` — no stale-root failure is surfaced — and the `merkleRoot`
property actually evaluated into the circuit-input record is the stale
connect-time `0xaaaa`, not the root at path-resolution time. -/
theorem C6_counterexample_root_advance_not_detected :
    cConnectedState.merkleRoot = some sampleApi.merkleRoot ∧
    (advancedApi.merkleRoot == sampleApi.merkleRoot) = false ∧
    ((generateWithdrawProof (some advancedApi) sampleProver cConnectedState).1).all
      ApiQuery.isTreeNodes = true ∧
    (generateWithdrawProof (some advancedApi) sampleProver cConnectedState).2 =
      .error (.referenceError "nullifierBn") ∧
    evalPropsPrefix
      (withdrawProveEnv cConnectedState 0 note100 (hexToBn note100.nonce)
        (.poseidon1 (.lit (hexToBn note100.nonce)))
        (fetchMerklePath (some advancedApi) note100.leafIndex)
        (hexToBn cConnectedState.withdraw.amount)
        (hexToBn (ensure0x cConnectedState.withdraw.recipient)) 0)
      withdrawProveProps = [("merkleRoot", .optStr (some "0xaaaa"))] := by
  refine ⟨rfl, rfl, rfl, rfl, rfl⟩

/-- C6 (amended): the root the pipeline uses is the one captured by
`connect`; no function of the withdraw/transfer pipeline ever re-reads the
chain root (all their queries are `treeNodes` reads) or changes the stored
root, and the only failures the withdraw path can surface are its three
validation errors and the `ReferenceError` — there is no stale-root
detection. -/
theorem C6_root_captured_at_connect_never_rechecked :
    (∀ (a : Api) (sn : Option (List Note)) (st : PanelState),
      (connect a sn st).merkleRoot = some a.merkleRoot) ∧
    (∀ (api : Option Api) (prover : Prover) (st : PanelState),
      ((generateWithdrawProof api prover st).1).all ApiQuery.isTreeNodes = true) ∧
    (∀ (api : Option Api) (selectedAccount : Option String) (prover : Prover)
        (nonce1 nonce2 : String) (st : PanelState),
      ((generateTransactProof api selectedAccount prover nonce1 nonce2 st).1).all
        ApiQuery.isTreeNodes = true) ∧
    (∀ (api : Option Api) (prover : Prover) (st : PanelState),
      (generateWithdrawProof api prover st).2 ∈
        [Except.error PanelError.selectANote, .error .invalidNote,
         .error .poseidonNotInitialized, .error (.referenceError "nullifierBn")]) ∧
    (∀ (st : PanelState) (r : TxResult), (withdrawOnStatus st r).merkleRoot = st.merkleRoot) ∧
    (∀ (st : PanelState) (res : TransactProofResult) (r : TxResult),
      (transactOnStatus st res r).merkleRoot = st.merkleRoot) := by
  refine ⟨?_, generateWithdrawProof_queries, generateTransactProof_queries,
    generateWithdrawProof_result, withdrawOnStatus_merkleRoot, transactOnStatus_merkleRoot⟩
  intro a sn st
  cases sn <;> rfl

/-- C7 counterexample: transfer of notes (100, 50) into outputs (120, 29):
conservation fails — the circuit's balance equation rejects these amounts —
yet the Building step does not: the run passes validation, resolves both
Merkle paths (64 queries) and stops only at the unrelated `ReferenceError`,
with no balance rejection of any kind. -/
theorem C7_counterexample_no_balance_rejection :
    hexToBn note100.amount = 100 ∧ hexToBn note50.amount = 50 ∧
    hexToBn cTransactState.transact.toAmount1 = 120 ∧
    hexToBn cTransactState.transact.toAmount2 = 29 ∧
    circuitBalanceHolds 100 50 120 29 = false ∧
    (generateTransactProof (some sampleApi) (some "0xabcd") sampleProver "0xb1" "0xb2"
      cTransactState).2 = .error (.referenceError "nullifier1Bn") ∧
    ((generateTransactProof (some sampleApi) (some "0xabcd") sampleProver "0xb1" "0xb2"
      cTransactState).1).length = 64 := by
  refine ⟨by decide, by decide, by decide, by decide, rfl, rfl, rfl⟩

/-- C7 (amended): the client performs no balance-conservation validation at
all — for every pair of output amount strings, conserving or not, the
transfer run behaves identically (it proceeds past Building into path
resolution and dies on the `ReferenceError`); conservation is enforced only
by the circuit's constraint `note1_amount + note2_amount === out1_amount +
out2_amount`, which carries no fee term. -/
theorem C7_building_never_checks_balance :
    (∀ (n1 n2 : Note) (rest : List Note) (mr : Option String) (wf : WithdrawForm)
        (a1 r1 a2 : String) (api : Api) (address : String) (prover : Prover)
        (nonce1 nonce2 : String) (ld : Bool) (er : Option String) (ev : List String),
      (generateTransactProof (some api) (some address) prover nonce1 nonce2
        { merkleRoot := mr, userNotes := n1 :: n2 :: rest, poseidonReady := true,
          withdraw := wf,
          transact :=
            { fromNote1 := some 0, fromNote2 := some 1, toAmount1 := a1,
              toRecipient1 := r1, toAmount2 := a2 },
          loading := ld, error := er, events := ev }).2 =
        .error (.referenceError "nullifier1Bn")) ∧
    circuitBalanceHolds 100 50 120 30 = true ∧
    circuitBalanceHolds 100 50 120 29 = false := by
  refine ⟨?_, rfl, rfl⟩
  intro n1 n2 rest mr wf a1 r1 a2 api address prover nonce1 nonce2 ld er ev
  unfold generateTransactProof
  simp [evalProps_transact]

/-- C8 counterexample: the in-block status is not finality, yet the withdraw
callback fired on it already rewrites the note store. -/
theorem C8_counterexample_store_mutated_before_finality :
    (TxStatus.inBlock "0xb").isFinalized = false ∧
    (((withdrawOnStatus cWithdrawState { status := .inBlock "0xb", events := [] }).userNotes)
      == cWithdrawState.userNotes) = false := by
  refine ⟨rfl, rfl⟩

/-- C8 (amended): the Note Store is mutated exactly when the ledger reports
the transaction included in a block (`isInBlock`): every callback is the
identity on any other status — including `finalized`, which triggers no
further update — the synchronous handler parts never touch the store, and
the in-block withdraw mutation is the removal of the selected index. -/
theorem C8_store_mutated_exactly_at_inblock :
    (∀ (st : PanelState) (r : TxResult), r.status.isInBlock = false →
      withdrawOnStatus st r = st) ∧
    (∀ (st : PanelState) (res : TransactProofResult) (r : TxResult),
      r.status.isInBlock = false → transactOnStatus st res r = st) ∧
    (∀ (st : PanelState) (amt nc : String) (cm : FExpr) (r : TxResult),
      r.status.isInBlock = false → depositOnStatus st amt nc cm r = st) ∧
    (∀ (api : Option Api) (selectedAccount : Option String) (prover : Prover)
        (st : PanelState),
      ((handleWithdraw api selectedAccount prover st).1).userNotes = st.userNotes) ∧
    (∀ (api : Option Api) (selectedAccount : Option String) (prover : Prover)
        (nonce1 nonce2 : String) (st : PanelState),
      ((handleTransact api selectedAccount prover nonce1 nonce2 st).1).userNotes =
        st.userNotes) ∧
    (∀ (st : PanelState) (b : String) (evts : List EventRecord),
      (withdrawOnStatus st { status := .inBlock b, events := evts }).userNotes =
        filterIdx (fun i => ((some i : Option Nat) != st.withdraw.noteIndex))
          st.userNotes) := by
  refine ⟨?_, ?_, ?_, handleWithdraw_userNotes, handleTransact_userNotes, ?_⟩
  · intro st r h
    simp [withdrawOnStatus, h]
  · intro st res r h
    simp [transactOnStatus, h]
  · intro st amt nc cm r h
    simp [depositOnStatus, h]
  · intro st b evts
    simp [withdrawOnStatus, TxStatus.isInBlock]

/-- Witness for C8 at concrete inputs: the finalized status leaves the store
untouched, and the in-block status removes the spent index. -/
theorem C8_store_mutated_exactly_at_inblock_witness :
    withdrawOnStatus cWithdrawState { status := .finalized "0xb", events := [] } =
      cWithdrawState ∧
    transactOnStatus cTransactState cTransactRes
      { status := .finalized "0xb", events := [] } = cTransactState ∧
    (withdrawOnStatus cWithdrawState { status := .inBlock "0xb", events := [] }).userNotes =
      filterIdx (fun i => ((some i : Option Nat) != cWithdrawState.withdraw.noteIndex))
        cWithdrawState.userNotes :=
  ⟨C8_store_mutated_exactly_at_inblock.1 cWithdrawState
      { status := .finalized "0xb", events := [] } rfl,
   C8_store_mutated_exactly_at_inblock.2.1 cTransactState cTransactRes
      { status := .finalized "0xb", events := [] } rfl,
   C8_store_mutated_exactly_at_inblock.2.2.2.2.2 cWithdrawState "0xb" []⟩

/-- C9 counterexample: with the api connected, `fetchMerklePath` returns 32
sibling hashes — not the 20 levels the proving circuit is instantiated with —
and with no api it returns an empty path instead of failing: neither outcome
is "exactly the circuit depth or failure". -/
theorem C9_counterexample_path_length_mismatch :
    (fetchMerklePath (some sampleApi) 5).length = 32 ∧
    circuitLevels = 20 ∧
    ((32 : Nat) == 20) = false ∧
    fetchMerklePath none 5 = [] := by
  refine ⟨rfl, rfl, rfl, rfl⟩

/-- C9 (amended): `fetchMerklePath` never fails: for every leaf index it
returns exactly `depth = 32` hashes (its hardcoded depth) when the api is
connected, and the empty path when it is not; the sample circuit's depth is
20, which the hardcoded 32 never matches. -/
theorem C9_path_always_hardcoded_32_or_empty :
    (∀ (a : Api) (leafIndex : Nat), (fetchMerklePath (some a) leafIndex).length = depth) ∧
    depth = 32 ∧
    (∀ leafIndex : Nat, fetchMerklePath none leafIndex = []) ∧
    circuitLevels = 20 := by
  refine ⟨?_, rfl, fun _ => rfl, rfl⟩
  intro a leafIndex
  simp [fetchMerklePath, fetchLoop_length]

/-- C10: for every natural-number index, the parity-branch sibling
computation of the code equals `index XOR 1`, and since the loop then halves
the index, the code's path loop computes exactly the spec's per-level
algorithm (same sibling at each level, same index update). -/
theorem C10_sibling_branch_is_xor_and_loop_matches_spec :
    (∀ index : Nat, siblingIndex index = index ^^^ 1) ∧
    (∀ (tn : Nat → Nat → String) (d index : Nat),
      fetchLoop tn d index = specResolveLoop tn d index) :=
  ⟨siblingIndex_eq_xor, fun tn d index => fetchLoop_eq_specResolveLoop tn d index⟩

end Xorion
